import Mathlib

/-!
Verification development for the xtaskops repository (Rust).

The core task-orchestration layer is shallowly embedded here:

* the filesystem is a finite list of path/kind entries (`FS`), with the
  operations the code uses (`create_dir_all`, `remove_dir_all`, existence
  and directory probes) made explicit;
* every external-process invocation is a `CommandSpec` value; whether a
  subprocess exits successfully is an oracle parameter, and sequential
  `.run()?` chains become the fail-fast `runPipeline`;
* fallible code returns explicit result types instead of raising.

Definitions are translated from `src/xtaskops/src/ops.rs` and
`src/xtaskops/src/tasks.rs`; doc comments point to the functions they embed.
-/

/-- A filesystem path, as its list of components. -/
abbrev FsPath := List String

/-- Kind of a filesystem node: directory or regular file. -/
inductive NodeKind
  | dir
  | file
deriving DecidableEq

/-- Boolean test for the directory kind. -/
def NodeKind.isDirKind : NodeKind → Bool
  | NodeKind.dir => true
  | NodeKind.file => false

/-- A filesystem state: the finite list of existing nodes with their kinds. -/
structure FS where
  entries : List (FsPath × NodeKind)
deriving DecidableEq

/-- Boolean prefix test on paths (`p` is an ancestor-or-self of `q`). -/
def isPrefixB : FsPath → FsPath → Bool
  | [], _ => true
  | _ :: _, [] => false
  | a :: as, b :: bs => (a == b) && isPrefixB as bs

/-- All nonempty prefixes of a path, shortest first (ending with the path itself). -/
def prefixesOf : FsPath → List FsPath
  | [] => []
  | s :: rest => [s] :: (prefixesOf rest).map (fun q => s :: q)

/-- Does the path exist in the filesystem (`FsPath::exists`)? -/
def FS.existsPath (fs : FS) (p : FsPath) : Bool :=
  fs.entries.any (fun e => e.1 == p)

/-- Does the path exist as a directory (`FsPath::is_dir`)? -/
def FS.isDir (fs : FS) (p : FsPath) : Bool :=
  fs.entries.any (fun e => (e.1 == p) && e.2.isDirKind)

/-- Well-formedness of a filesystem snapshot: every proper nonempty prefix of an
existing node is an existing directory (prefix closure, as on a real filesystem). -/
def FS.wf (fs : FS) : Bool :=
  fs.entries.all (fun e => (prefixesOf e.1).all (fun q => (q == e.1) || fs.isDir q))

/-- The path exists as a directory and nothing lies strictly beneath it. -/
def FS.emptyDirAt (fs : FS) (p : FsPath) : Bool :=
  fs.isDir p && fs.entries.all (fun e => !(isPrefixB p e.1 && !(p == e.1)))

/-- The effect of a successful `std::fs::create_dir_all`: create the directory
and all missing ancestors (applies only when `FS.canCreateDirAll` holds). -/
def FS.createDirAll (fs : FS) (p : FsPath) : FS :=
  ⟨fs.entries ++ ((prefixesOf p).filter (fun q => !(fs.existsPath q))).map
      (fun q => (q, NodeKind.dir))⟩

/-- Whether `std::fs::create_dir_all` can succeed at this path: every prefix
that already exists must be a directory; when a non-directory component is in
the way the real call fails with an I/O (not-a-directory) error. -/
def FS.canCreateDirAll (fs : FS) (p : FsPath) : Bool :=
  (prefixesOf p).all (fun q => !fs.existsPath q || fs.isDir q)

/-- `std::fs::remove_dir_all`: delete the directory and everything beneath it. -/
def FS.removeDirAll (fs : FS) (p : FsPath) : FS :=
  ⟨fs.entries.filter (fun e => !(isPrefixB p e.1))⟩

/-- Structured filesystem error, as carried by `io::Error` in `ops.rs`. -/
inductive FsError
  | notADirectory
deriving DecidableEq

/-- Result of a filesystem operation (`io::Result<()>`). -/
inductive FsResult
  | ok
  | err (e : FsError)
deriving DecidableEq

/-- Embeds `ops::get_clean_directory` (ops.rs:36-47): create the path
recursively when absent; delete it (with all contents) when it is a directory;
fail with `NotADirectory` otherwise. Returns the result together with the
filesystem afterward. -/
def get_clean_directory (p : FsPath) (fs : FS) : FsResult × FS :=
  if fs.existsPath p = false then
    if fs.canCreateDirAll p then (FsResult.ok, fs.createDirAll p)
    else (FsResult.err FsError.notADirectory, fs)
  else if fs.isDir p then
    (FsResult.ok, fs.removeDirAll p)
  else
    (FsResult.err FsError.notADirectory, fs)

theorem isPrefixB_refl : ∀ p : FsPath, isPrefixB p p = true := by
  intro p
  induction p with
  | nil => rfl
  | cons a as ih => simp [isPrefixB, ih]

theorem isPrefixB_antisymm :
    ∀ p q : FsPath, isPrefixB p q = true → isPrefixB q p = true → p = q := by
  intro p
  induction p with
  | nil =>
    intro q h1 h2
    cases q with
    | nil => rfl
    | cons b bs => simp [isPrefixB] at h2
  | cons a as ih =>
    intro q h1 h2
    cases q with
    | nil => simp [isPrefixB] at h1
    | cons b bs =>
      simp only [isPrefixB, Bool.and_eq_true, beq_iff_eq] at h1 h2
      obtain ⟨hab, h1⟩ := h1
      obtain ⟨hba, h2⟩ := h2
      subst hab
      rw [ih bs h1 h2]

theorem mem_prefixesOf (r q : FsPath) :
    q ∈ prefixesOf r ↔ (q ≠ [] ∧ isPrefixB q r = true) := by
  induction r generalizing q with
  | nil =>
    cases q <;> simp [prefixesOf, isPrefixB]
  | cons s rest ih =>
    cases q with
    | nil =>
      simp [prefixesOf]
    | cons a as =>
      constructor
      · intro h
        simp only [prefixesOf, List.mem_cons, List.mem_map] at h
        rcases h with h | ⟨x, hx, hxeq⟩
        · obtain ⟨ha, has⟩ : a = s ∧ as = [] := by
            constructor <;> [exact (List.cons.injEq a as s []).mp h |>.1;
              exact (List.cons.injEq a as s []).mp h |>.2]
          subst ha; subst has
          simp [isPrefixB]
        · obtain ⟨hsa, hxas⟩ := (List.cons.injEq s x a as).mp hxeq
          subst hsa; subst hxas
          have := (ih x).mp hx
          simp [isPrefixB, this.2]
      · rintro ⟨-, hpre⟩
        simp only [isPrefixB, Bool.and_eq_true, beq_iff_eq] at hpre
        obtain ⟨has, hpre⟩ := hpre
        subst has
        cases as with
        | nil => simp [prefixesOf]
        | cons b bs =>
          simp only [prefixesOf, List.mem_cons, List.mem_map]
          right
          exact ⟨b :: bs, (ih (b :: bs)).mpr ⟨List.cons_ne_nil b bs, hpre⟩, rfl⟩

theorem isDir_exists (fs : FS) (p : FsPath) (h : fs.isDir p = true) :
    fs.existsPath p = true := by
  rw [FS.isDir, List.any_eq_true] at h
  obtain ⟨e, hm, he⟩ := h
  rw [Bool.and_eq_true] at he
  rw [FS.existsPath, List.any_eq_true]
  exact ⟨e, hm, he.1⟩

theorem createDirAll_isDir (fs : FS) (p : FsPath) (hp : p ≠ [])
    (h : fs.existsPath p = false) : (fs.createDirAll p).isDir p = true := by
  rw [FS.isDir, List.any_eq_true]
  refine ⟨(p, NodeKind.dir), ?_, by simp [NodeKind.isDirKind]⟩
  rw [FS.createDirAll]
  simp only [List.mem_append, List.mem_map, List.mem_filter]
  right
  exact ⟨p, ⟨(mem_prefixesOf p p).mpr ⟨hp, isPrefixB_refl p⟩, by simp [h]⟩, rfl⟩

theorem createDirAll_emptyDirAt (fs : FS) (p : FsPath) (hwf : fs.wf = true)
    (hp : p ≠ []) (h : fs.existsPath p = false) :
    (fs.createDirAll p).emptyDirAt p = true := by
  rw [FS.emptyDirAt, Bool.and_eq_true]
  refine ⟨createDirAll_isDir fs p hp h, ?_⟩
  rw [List.all_eq_true]
  intro e he
  by_cases hpre : isPrefixB p e.1 = true
  · by_cases heq : p = e.1
    · simp [heq]
    · exfalso
      rw [FS.createDirAll] at he
      simp only [List.mem_append, List.mem_map, List.mem_filter] at he
      rcases he with he | ⟨q, ⟨hq, -⟩, hqe⟩
      · -- an old entry strictly beneath p would force p to exist, by prefix closure
        rw [FS.wf, List.all_eq_true] at hwf
        have hall := hwf e he
        rw [List.all_eq_true] at hall
        have hdisj := hall p ((mem_prefixesOf e.1 p).mpr ⟨hp, hpre⟩)
        rw [Bool.or_eq_true] at hdisj
        rcases hdisj with hbeq | hdir
        · exact heq (by simpa using hbeq)
        · exact absurd (isDir_exists fs p hdir) (by simp [h])
      · -- a freshly created ancestor of p cannot lie strictly beneath p
        subst hqe
        exact heq (isPrefixB_antisymm p q hpre ((mem_prefixesOf p q).mp hq).2)
  · simp only [Bool.not_eq_true] at hpre
    simp [hpre]

theorem removeDirAll_not_exists (fs : FS) (p q : FsPath) (h : isPrefixB p q = true) :
    (fs.removeDirAll p).existsPath q = false := by
  by_contra hcon
  rw [Bool.not_eq_false, FS.removeDirAll, FS.existsPath, List.any_eq_true] at hcon
  obtain ⟨e, he, heq⟩ := hcon
  rw [List.mem_filter] at he
  rw [beq_iff_eq] at heq
  have hkept := he.2
  rw [heq, Bool.not_eq_true', h] at hkept
  exact Bool.noConfusion hkept

theorem get_clean_directory_absent (fs : FS) (p : FsPath)
    (h : fs.existsPath p = false) (hcan : fs.canCreateDirAll p = true) :
    get_clean_directory p fs = (FsResult.ok, fs.createDirAll p) := by
  simp [get_clean_directory, h, hcan]

theorem get_clean_directory_blocked (fs : FS) (p : FsPath)
    (h : fs.existsPath p = false) (hcan : fs.canCreateDirAll p = false) :
    get_clean_directory p fs = (FsResult.err FsError.notADirectory, fs) := by
  simp [get_clean_directory, h, hcan]

theorem get_clean_directory_dir (fs : FS) (p : FsPath) (h : fs.isDir p = true) :
    get_clean_directory p fs = (FsResult.ok, fs.removeDirAll p) := by
  simp [get_clean_directory, isDir_exists fs p h, h]

theorem get_clean_directory_file (fs : FS) (p : FsPath)
    (hex : fs.existsPath p = true) (hnd : fs.isDir p = false) :
    get_clean_directory p fs = (FsResult.err FsError.notADirectory, fs) := by
  simp [get_clean_directory, hex, hnd]


/-- A single external-process invocation: program, ordered argument list, and
environment overrides, as assembled by the tasks in `tasks.rs`. -/
structure CommandSpec where
  program : String
  args : List String
  env : List (String × String)
deriving DecidableEq

/-- Result of executing a sequence of invocations: success, or the first
failing invocation (whose error the `?` operator propagates). -/
inductive PipeResult
  | ok
  | failed (c : CommandSpec)
deriving DecidableEq

/-- Fail-fast sequential execution of `.run()?` chains: each command runs in
order; the first one the oracle rejects aborts the rest. Returns the commands
actually executed together with the outcome. -/
def runPipeline (oracle : CommandSpec → Bool) :
    List CommandSpec → List CommandSpec × PipeResult
  | [] => ([], PipeResult.ok)
  | c :: rest =>
    if oracle c then
      (c :: (runPipeline oracle rest).1, (runPipeline oracle rest).2)
    else
      ([c], PipeResult.failed c)

theorem runPipeline_all_ok (oracle : CommandSpec → Bool) :
    ∀ l : List CommandSpec, (∀ d ∈ l, oracle d = true) →
    runPipeline oracle l = (l, PipeResult.ok) := by
  intro l
  induction l with
  | nil => intro _; rfl
  | cons c rest ih =>
    intro h
    have hc : oracle c = true := h c (by simp)
    rw [runPipeline, if_pos hc, ih (fun d hd => h d (by simp [hd]))]

theorem runPipeline_fail (oracle : CommandSpec → Bool) :
    ∀ (l₁ : List CommandSpec) (c : CommandSpec) (l₂ : List CommandSpec),
    (∀ d ∈ l₁, oracle d = true) → oracle c = false →
    runPipeline oracle (l₁ ++ c :: l₂) = (l₁ ++ [c], PipeResult.failed c) := by
  intro l₁
  induction l₁ with
  | nil =>
    intro c l₂ _ hc
    simp [runPipeline, hc]
  | cons d ds ih =>
    intro c l₂ h hc
    have hd : oracle d = true := h d (by simp)
    rw [List.cons_append, runPipeline, if_pos hd,
      ih c l₂ (fun x hx => h x (by simp [hx])) hc]
    rfl

/-- The `CI` configuration struct (tasks.rs:22-34). -/
structure CI where
  nightly : Bool
  clippy_max : Bool
deriving DecidableEq

/-- The derive_builder-generated builder for `CI`: unset fields are `none`. -/
structure CIBuilder where
  nightly : Option Bool := none
  clippy_max : Option Bool := none
deriving DecidableEq

/-- `CIBuilder::build`: applies the documented defaults
(`nightly = false`, `clippy_max = true`) to unset fields. -/
def CIBuilder.build (b : CIBuilder) : CI :=
  ⟨b.nightly.getD false, b.clippy_max.getD true⟩

/-- The format-check invocation of `CIBuilder::run` (tasks.rs:44-47):
`cargo fmt --all -- --check`, with a `+nightly` prefix inserted first when
`nightly` is set. -/
def CI.checkCmd (t : CI) : CommandSpec :=
  ⟨"cargo", (if t.nightly then ["+nightly"] else []) ++
    ["fmt", "--all", "--", "--check"], []⟩

/-- The lint invocation of `CIBuilder::run` (tasks.rs:49-59):
`cargo clippy -- -D warnings`, extended with the pedantic/nursery/2018-idioms
warning categories when `clippy_max` is set. -/
def CI.clippyCmd (t : CI) : CommandSpec :=
  ⟨"cargo", ["clippy", "--", "-D", "warnings"] ++
    (if t.clippy_max then
      ["-W", "clippy::pedantic", "-W", "clippy::nursery", "-W", "rust-2018-idioms"]
    else []), []⟩

/-- The unit-test invocation `cargo test` (tasks.rs:63). -/
def ciTestCmd : CommandSpec := ⟨"cargo", ["test"], []⟩

/-- The doc-test invocation `cargo test --doc` (tasks.rs:64). -/
def ciDocTestCmd : CommandSpec := ⟨"cargo", ["test", "--doc"], []⟩

/-- The four invocations of `CIBuilder::run`, in source order (tasks.rs:61-64). -/
def CI.commands (t : CI) : List CommandSpec :=
  [t.checkCmd, t.clippyCmd, ciTestCmd, ciDocTestCmd]

/-- `CIBuilder::run` (tasks.rs:42-66): build the config, then execute its four
invocations sequentially with `?`-propagation, i.e. fail-fast. -/
def CIBuilder.run (b : CIBuilder) (oracle : CommandSpec → Bool) :
    List CommandSpec × PipeResult :=
  runPipeline oracle (b.build).commands

/-- `CIBuilder::default()`, used by the `ci` task (tasks.rs:75-77). -/
def defaultCIBuilder : CIBuilder := {}

/-- The `Powerset` configuration struct (tasks.rs:162-172). `depth` is an `i32`
in the source, modelled as `Int`. -/
structure Powerset where
  depth : Int
  exclude_no_default_features : Bool
deriving DecidableEq

/-- The derive_builder-generated builder for `Powerset`. -/
structure PowersetBuilder where
  depth : Option Int := none
  exclude_no_default_features : Option Bool := none
deriving DecidableEq

/-- `PowersetBuilder::build`: applies the documented defaults
(`depth = 2`, `exclude_no_default_features = false`). -/
def PowersetBuilder.build (b : PowersetBuilder) : Powerset :=
  ⟨b.depth.getD 2, b.exclude_no_default_features.getD false⟩

/-- The shared `common` argument block of `PowersetBuilder::run`
(tasks.rs:182-193), with the depth rendered as a decimal string. -/
def psCommon (t : Powerset) : List String :=
  ["--workspace", "--exclude", "xtask", "--feature-powerset", "--depth",
    toString t.depth] ++
  (if t.exclude_no_default_features then ["--exclude-no-default-features"] else [])

/-- The powerset lint invocation (tasks.rs:194-203):
`cargo hack clippy <common> -- -D warnings`. -/
def Powerset.clippyCmd (t : Powerset) : CommandSpec :=
  ⟨"cargo", ["hack", "clippy"] ++ psCommon t ++ ["--", "-D", "warnings"], []⟩

/-- The powerset unit-test invocation (tasks.rs:204): `cargo hack <common> test`. -/
def Powerset.testCmd (t : Powerset) : CommandSpec :=
  ⟨"cargo", ["hack"] ++ psCommon t ++ ["test"], []⟩

/-- The powerset doc-test invocation (tasks.rs:205-209):
`cargo hack test <common> --doc`. -/
def Powerset.docTestCmd (t : Powerset) : CommandSpec :=
  ⟨"cargo", ["hack", "test"] ++ psCommon t ++ ["--doc"], []⟩

/-- The three invocations of `PowersetBuilder::run`, in source order. -/
def Powerset.commands (t : Powerset) : List CommandSpec :=
  [t.clippyCmd, t.testCmd, t.docTestCmd]

/-- `PowersetBuilder::run` (tasks.rs:180-211): build, then execute the three
invocations sequentially with `?`-propagation. -/
def PowersetBuilder.run (b : PowersetBuilder) (oracle : CommandSpec → Bool) :
    List CommandSpec × PipeResult :=
  runPipeline oracle (b.build).commands

/-- A builder with only `depth` set to 3, as `PowersetBuilder::default().depth(3)`. -/
def depth3Builder : PowersetBuilder := { depth := some 3 }

/-- Contiguous-sublist test: does `block` occur consecutively inside the list? -/
def containsBlock (block : List String) : List String → Bool
  | [] => List.isPrefixOf block []
  | s :: rest => List.isPrefixOf block (s :: rest) || containsBlock block rest

/-- An oracle under which every subprocess exits successfully. -/
def allOk : CommandSpec → Bool := fun _ => true

/-- An oracle that fails exactly the clippy invocations (first argument
`clippy` or first arguments `hack clippy`). -/
def failsOnClippy (c : CommandSpec) : Bool :=
  !(c.args.head? == some "clippy")

/-- A concrete filesystem: directory `a` containing regular file `a/b.txt`. -/
def fsWithFile : FS := ⟨[(["a"], NodeKind.dir), (["a", "b.txt"], NodeKind.file)]⟩

/-- The default format-check invocation: `cargo fmt --all -- --check`. -/
def fmtCheckDefaultCmd : CommandSpec :=
  ⟨"cargo", ["fmt", "--all", "--", "--check"], []⟩

/-- The default lint invocation with the extended categories appended. -/
def clippyMaxCmd : CommandSpec :=
  ⟨"cargo", ["clippy", "--", "-D", "warnings", "-W", "clippy::pedantic",
    "-W", "clippy::nursery", "-W", "rust-2018-idioms"], []⟩

/-- A filesystem whose sole node `a` is a regular file: the absent path `a/b`
then has a non-directory ancestor. -/
def fsFileRoot : FS := ⟨[(["a"], NodeKind.file)]⟩

/-- Counterexample to C4 as stated: the path `a/b` does not exist in a
well-formed state, yet `get_clean_directory` does not succeed - the
`create_dir_all` branch fails with the not-a-directory I/O error because the
ancestor `a` exists as a regular file, and the filesystem is left unchanged. -/
theorem C4_cex :
    fsFileRoot.wf = true ∧
    fsFileRoot.existsPath ["a", "b"] = false ∧
    (get_clean_directory ["a", "b"] fsFileRoot).1 =
      FsResult.err FsError.notADirectory ∧
    (get_clean_directory ["a", "b"] fsFileRoot).2 = fsFileRoot := by
  decide

/-- Claim C4 (corrected): for a well-formed filesystem and nonempty path `p`:
if `p` does not exist and every existing ancestor of `p` is a directory, the
call succeeds and leaves `p` an existing empty directory; if `p` does not
exist but a non-directory component is in the way, the call instead fails and
changes nothing; if `p` exists as a (possibly non-empty) directory, the call
succeeds and removes everything at or beneath `p`. -/
theorem C4_amended (fs : FS) (p : FsPath)
    (hwf : fs.wf = true) (hp : p ≠ []) :
    (fs.existsPath p = false → fs.canCreateDirAll p = true →
      (get_clean_directory p fs).1 = FsResult.ok ∧
      ((get_clean_directory p fs).2).emptyDirAt p = true) ∧
    (fs.existsPath p = false → fs.canCreateDirAll p = false →
      (get_clean_directory p fs).1 = FsResult.err FsError.notADirectory ∧
      (get_clean_directory p fs).2 = fs) ∧
    (fs.isDir p = true →
      (get_clean_directory p fs).1 = FsResult.ok ∧
      ∀ q, isPrefixB p q = true →
        ((get_clean_directory p fs).2).existsPath q = false) := by
  refine ⟨?_, ?_, ?_⟩
  · intro h hcan
    rw [get_clean_directory_absent fs p h hcan]
    exact ⟨rfl, createDirAll_emptyDirAt fs p hwf hp h⟩
  · intro h hcan
    rw [get_clean_directory_blocked fs p h hcan]
    exact ⟨rfl, rfl⟩
  · intro h
    rw [get_clean_directory_dir fs p h]
    exact ⟨rfl, fun q hq => removeDirAll_not_exists fs p q hq⟩

/-- Witness for C4 (amended) at a concrete filesystem and an absent path with
only directory ancestors. -/
theorem C4_witness :
    (get_clean_directory ["coverage"] fsWithFile).1 = FsResult.ok ∧
    ((get_clean_directory ["coverage"] fsWithFile).2).emptyDirAt ["coverage"] = true :=
  (C4_amended fsWithFile ["coverage"] (by decide) (by decide)).1
    (by decide) (by decide)

/-- Claim C5 (confirmed): `get_clean_directory` on a path that exists but is
not a directory (a regular file) fails with the not-a-directory error and
leaves the filesystem state unchanged. -/
theorem C5_get_clean_directory_file (fs : FS) (p : FsPath)
    (hex : fs.existsPath p = true) (hnd : fs.isDir p = false) :
    (get_clean_directory p fs).1 = FsResult.err FsError.notADirectory ∧
    (get_clean_directory p fs).2 = fs := by
  rw [get_clean_directory_file fs p hex hnd]
  exact ⟨rfl, rfl⟩

/-- Witness for C5 at the concrete regular file `a/b.txt`. -/
theorem C5_witness :
    (get_clean_directory ["a", "b.txt"] fsWithFile).1 =
      FsResult.err FsError.notADirectory ∧
    (get_clean_directory ["a", "b.txt"] fsWithFile).2 = fsWithFile :=
  C5_get_clean_directory_file fsWithFile ["a", "b.txt"] (by decide) (by decide)

/-- Claim C6 (confirmed): a CI configuration built with no explicit overrides
has `nightly = false` and `clippy_max = true`; its run executes the
format-check invocation without a nightly toolchain prefix and the lint
invocation with the extended categories appended. -/
theorem C6_ci_defaults :
    (defaultCIBuilder.build).nightly = false ∧
    (defaultCIBuilder.build).clippy_max = true ∧
    (defaultCIBuilder.build).checkCmd = fmtCheckDefaultCmd ∧
    (defaultCIBuilder.build).clippyCmd = clippyMaxCmd ∧
    containsBlock ["-W", "clippy::pedantic", "-W", "clippy::nursery",
      "-W", "rust-2018-idioms"] (defaultCIBuilder.build).clippyCmd.args = true ∧
    "+nightly" ∉ (defaultCIBuilder.build).checkCmd.args ∧
    CIBuilder.run defaultCIBuilder allOk =
      ((defaultCIBuilder.build).commands, PipeResult.ok) := by
  decide

/-- Claim C7 (confirmed): `CIBuilder::run` executes exactly the four
invocations format-check, lint, unit test, doc test in that fixed order, and
is fail-fast: when all succeed all four execute; when a step fails after all
earlier ones succeed, execution stops at that step and the result reports that
step's failure. -/
theorem C7_ci_failfast (b : CIBuilder) (oracle : CommandSpec → Bool) :
    (b.build).commands =
      [(b.build).checkCmd, (b.build).clippyCmd, ciTestCmd, ciDocTestCmd] ∧
    ((∀ d ∈ (b.build).commands, oracle d = true) →
      CIBuilder.run b oracle = ((b.build).commands, PipeResult.ok)) ∧
    (∀ l₁ c l₂, (b.build).commands = l₁ ++ c :: l₂ →
      (∀ d ∈ l₁, oracle d = true) → oracle c = false →
      CIBuilder.run b oracle = (l₁ ++ [c], PipeResult.failed c)) := by
  refine ⟨rfl, ?_, ?_⟩
  · intro h
    exact runPipeline_all_ok oracle _ h
  · intro l₁ c l₂ hsplit h1 hc
    rw [CIBuilder.run, hsplit]
    exact runPipeline_fail oracle l₁ c l₂ h1 hc

/-- Witness for C7: with the default config and an oracle failing exactly the
clippy step, only the format check and clippy execute and clippy's failure is
reported; the test invocations never run. -/
theorem C7_witness :
    CIBuilder.run defaultCIBuilder failsOnClippy =
      ([fmtCheckDefaultCmd, clippyMaxCmd], PipeResult.failed clippyMaxCmd) :=
  (C7_ci_failfast defaultCIBuilder failsOnClippy).2.2
    [fmtCheckDefaultCmd] clippyMaxCmd [ciTestCmd, ciDocTestCmd]
    (by decide) (by decide) (by decide)

/-- Claim C8 (confirmed): a Powerset configuration with `depth = 3` produces,
in order, the lint (clippy with warnings as errors), unit-test and doc-test
invocations; each argument vector carries the shared
workspace/exclude/feature-powerset block and contains the literal token `3`
immediately after `--depth`. -/
theorem C8_powerset_depth3 :
    (depth3Builder.build).commands =
      [(depth3Builder.build).clippyCmd, (depth3Builder.build).testCmd,
        (depth3Builder.build).docTestCmd] ∧
    (depth3Builder.build).clippyCmd.args =
      ["hack", "clippy", "--workspace", "--exclude", "xtask",
        "--feature-powerset", "--depth", "3", "--", "-D", "warnings"] ∧
    (depth3Builder.build).testCmd.args =
      ["hack", "--workspace", "--exclude", "xtask", "--feature-powerset",
        "--depth", "3", "test"] ∧
    (depth3Builder.build).docTestCmd.args =
      ["hack", "test", "--workspace", "--exclude", "xtask",
        "--feature-powerset", "--depth", "3", "--doc"] ∧
    containsBlock ["--depth", "3"] (depth3Builder.build).clippyCmd.args = true ∧
    containsBlock ["--depth", "3"] (depth3Builder.build).testCmd.args = true ∧
    containsBlock ["--depth", "3"] (depth3Builder.build).docTestCmd.args = true ∧
    PowersetBuilder.run depth3Builder allOk =
      ((depth3Builder.build).commands, PipeResult.ok) := by
  decide

/-- Render a path as a slash-separated string, for argument and environment
values handed to subprocesses. -/
def pathToString (p : FsPath) : String := String.intercalate "/" p

/-- One step of the coverage orchestrator, in execution order: an external
subprocess, the directory-cleaning call, a `create_dir_all` call, or the
glob-delete of raw profiles (`clean_files`). -/
inductive Step
  | run (c : CommandSpec)
  | cleanDir (p : FsPath)
  | createDirAll (p : FsPath)
  | cleanGlob (pat : String)
deriving DecidableEq

/-- Error cases of the coverage task (`anyhow` errors in the source). -/
inductive CovError
  | subprocessFailed (c : CommandSpec)
  | fsError (e : FsError)
  | unsupportedFormat (fmt : String)
deriving DecidableEq

/-- Result of a coverage run. -/
inductive CovResult
  | ok
  | err (e : CovError)
deriving DecidableEq

/-- The glob pattern of the final cleanup step (tasks.rs:154). -/
def profrawGlob : String := "**/*.profraw"

/-- `cargo metadata --format-version 1`, the subprocess behind
`ops::get_workspace_root` (ops.rs:152-156). -/
def cargoMetadataCmd : CommandSpec :=
  ⟨"cargo", ["metadata", "--format-version", "1"], []⟩

/-- The coverage directory `project_root/coverage` (tasks.rs:102). -/
def covDir (pr : FsPath) : FsPath := pr ++ ["coverage"]

/-- The raw-profile path template handed to LLVM (tasks.rs:105). -/
def profileFiles (pr : FsPath) : FsPath :=
  covDir pr ++ ["cargo-test-%p-%m.profraw"]

/-- The binary output folder `workspace_root/target` (tasks.rs:106). -/
def binaryFolder (wr : FsPath) : FsPath := wr ++ ["target"]

/-- The source directory `project_root/src` (tasks.rs:107). -/
def sourceDir (pr : FsPath) : FsPath := pr ++ ["src"]

/-- The instrumented-test invocation (tasks.rs:109-113): `cargo test
--all-features` with the three coverage environment overrides. -/
def covTestCmd (pr wr : FsPath) : CommandSpec :=
  ⟨"cargo", ["test", "--all-features"],
    [("CARGO_TARGET_DIR", pathToString (binaryFolder wr)),
     ("RUSTFLAGS", "-Cinstrument-coverage"),
     ("LLVM_PROFILE_FILE", pathToString (profileFiles pr))]⟩

/-- The report-generation invocation (tasks.rs:130-150): `grcov` over the
coverage directory with the fixed argument envelope; the output folder is the
coverage directory itself. -/
def covGrcovCmd (pr wr : FsPath) (fmt : String) : CommandSpec :=
  ⟨"grcov", [pathToString (covDir pr), "--binary-path",
    pathToString (binaryFolder wr), "--source-dir", pathToString (sourceDir pr),
    "--output-types", fmt, "--branch", "--ignore-not-existing",
    "--ignore", "../*", "--ignore", "/*", "--ignore", "xtask/*",
    "-o", pathToString (covDir pr)], []⟩

/-- The report formats accepted by the validation match (tasks.rs:121-127). -/
def validFormat (fmt : String) : Bool :=
  fmt == "html" || fmt == "lcov" || fmt == "cobertura" || fmt == "covdir"

/-- Suffix test used to model the `**/*.profraw` glob. -/
def endsWithProfraw (s : String) : Bool := s.endsWith ".profraw"

/-- Effect of `clean_files "**/*.profraw"` (ops.rs:27-30): delete every regular
file whose name matches the glob, anywhere under the working directory. -/
def FS.removeProfraw (fs : FS) : FS :=
  ⟨fs.entries.filter (fun e =>
    !((!e.2.isDirKind) &&
      (match e.1.getLast? with
       | some n => endsWithProfraw n
       | none => false)))⟩

/-- The steps every coverage run shares once the directory cleaning succeeded:
the metadata query, the cleaning call, and the instrumented-test invocation. -/
def covStepsPrefix (pr wr : FsPath) : List Step :=
  [Step.run cargoMetadataCmd, Step.cleanDir (covDir pr),
    Step.run (covTestCmd pr wr)]

/-- Trace of one coverage run: executed steps in order, the overall result,
the final filesystem, and the filesystem at the moment the instrumented-test
invocation is issued (`none` when execution aborts before it). -/
structure CovRun where
  steps : List Step
  result : CovResult
  fsFinal : FS
  fsAtTest : Option FS
deriving DecidableEq

/-- Embeds `tasks::coverage` (tasks.rs:98-159). `pr` and `wr` stand for the
successfully resolved `nearest_cargo_dir` and parsed `workspace_root`; the
metadata query behind the latter is still a subprocess and appears in the
trace. The oracle decides each subprocess's exit status. Control flow follows
the source: metadata query, directory cleaning, instrumented tests, early
return on `profraw`, format validation, `create_dir_all`, `grcov`, and only
then the `**/*.profraw` cleanup. -/
def coverage (fmt : String) (pr wr : FsPath) (oracle : CommandSpec → Bool)
    (fs0 : FS) : CovRun :=
  if oracle cargoMetadataCmd = false then
    ⟨[Step.run cargoMetadataCmd],
      CovResult.err (CovError.subprocessFailed cargoMetadataCmd), fs0, none⟩
  else
    match get_clean_directory (covDir pr) fs0 with
    | (FsResult.err e, fs1) =>
        ⟨[Step.run cargoMetadataCmd, Step.cleanDir (covDir pr)],
          CovResult.err (CovError.fsError e), fs1, none⟩
    | (FsResult.ok, fs1) =>
        if oracle (covTestCmd pr wr) = false then
          ⟨covStepsPrefix pr wr,
            CovResult.err (CovError.subprocessFailed (covTestCmd pr wr)),
            fs1, some fs1⟩
        else if fmt == "profraw" then
          ⟨covStepsPrefix pr wr, CovResult.ok, fs1, some fs1⟩
        else if validFormat fmt then
          if fs1.canCreateDirAll (covDir pr) = false then
            ⟨covStepsPrefix pr wr ++ [Step.createDirAll (covDir pr)],
              CovResult.err (CovError.fsError FsError.notADirectory),
              fs1, some fs1⟩
          else if oracle (covGrcovCmd pr wr fmt) = false then
            ⟨covStepsPrefix pr wr ++
                [Step.createDirAll (covDir pr), Step.run (covGrcovCmd pr wr fmt)],
              CovResult.err (CovError.subprocessFailed (covGrcovCmd pr wr fmt)),
              fs1.createDirAll (covDir pr), some fs1⟩
          else
            ⟨covStepsPrefix pr wr ++
                [Step.createDirAll (covDir pr), Step.run (covGrcovCmd pr wr fmt),
                  Step.cleanGlob profrawGlob],
              CovResult.ok,
              (fs1.createDirAll (covDir pr)).removeProfraw, some fs1⟩
        else
          ⟨covStepsPrefix pr wr,
            CovResult.err (CovError.unsupportedFormat fmt), fs1, some fs1⟩

/-- A concrete filesystem in which the coverage directory of project `p`
already exists and contains a stale artifact. -/
def fsStale : FS :=
  ⟨[(["p"], NodeKind.dir), (["p", "coverage"], NodeKind.dir),
    (["p", "coverage", "stale.profraw"], NodeKind.file)]⟩

theorem coverage_fsAtTest (fmt : String) (pr wr : FsPath)
    (oracle : CommandSpec → Bool) (fs : FS)
    (hm : oracle cargoMetadataCmd = true)
    (hclean : (get_clean_directory (covDir pr) fs).1 = FsResult.ok) :
    (coverage fmt pr wr oracle fs).fsAtTest =
      some ((get_clean_directory (covDir pr) fs).2) := by
  have hne : ¬ (oracle cargoMetadataCmd = false) := by simp [hm]
  rcases hgc : get_clean_directory (covDir pr) fs with ⟨r, fs1⟩
  cases r with
  | err e =>
    rw [hgc] at hclean
    simp at hclean
  | ok =>
    simp only [coverage, if_neg hne, hgc]
    split
    · rfl
    · split
      · rfl
      · split
        · split
          · rfl
          · split
            · rfl
            · rfl
        · rfl

/-- Counterexample to C1 as stated: a complete, successful profraw coverage
run whose trace ends with the instrumented tests and contains no cleanup step
deleting the raw profiles (and no grcov invocation). -/
theorem C1_cex :
    (coverage "profraw" ["p"] ["p"] allOk fsStale).result = CovResult.ok ∧
    (coverage "profraw" ["p"] ["p"] allOk fsStale).steps =
      covStepsPrefix ["p"] ["p"] ∧
    Step.cleanGlob profrawGlob ∉
      (coverage "profraw" ["p"] ["p"] allOk fsStale).steps := by
  decide

/-- Claim C1 (corrected): in every profraw coverage run that reaches the
instrumented tests, the test invocation executes and the report generator is
never invoked, but the final profraw cleanup step is skipped as well: the task
returns immediately after the tests, so the glob-delete runs only for report
formats. -/
theorem C1_amended (pr wr : FsPath) (oracle : CommandSpec → Bool) (fs : FS)
    (hm : oracle cargoMetadataCmd = true)
    (hclean : (get_clean_directory (covDir pr) fs).1 = FsResult.ok) :
    (coverage "profraw" pr wr oracle fs).steps = covStepsPrefix pr wr ∧
    Step.run (covTestCmd pr wr) ∈ (coverage "profraw" pr wr oracle fs).steps ∧
    (∀ pat, Step.cleanGlob pat ∉ (coverage "profraw" pr wr oracle fs).steps) ∧
    (∀ c, Step.run c ∈ (coverage "profraw" pr wr oracle fs).steps →
      c.program ≠ "grcov") ∧
    (oracle (covTestCmd pr wr) = true →
      (coverage "profraw" pr wr oracle fs).result = CovResult.ok) := by
  have hne : ¬ (oracle cargoMetadataCmd = false) := by simp [hm]
  rcases hgc : get_clean_directory (covDir pr) fs with ⟨r, fs1⟩
  cases r with
  | err e =>
    rw [hgc] at hclean
    simp at hclean
  | ok =>
    have hsteps : (coverage "profraw" pr wr oracle fs).steps =
        covStepsPrefix pr wr := by
      simp only [coverage, if_neg hne, hgc]
      by_cases h1 : oracle (covTestCmd pr wr) = false
      · simp [h1]
      · simp [h1]
    refine ⟨hsteps, ?_, ?_, ?_, ?_⟩
    · rw [hsteps]
      simp [covStepsPrefix]
    · intro pat
      rw [hsteps]
      simp [covStepsPrefix]
    · intro c hc
      rw [hsteps] at hc
      simp [covStepsPrefix] at hc
      rcases hc with hc | hc <;> subst hc <;>
        exact (by decide : ("cargo" : String) ≠ "grcov")
    · intro ht
      simp only [coverage, if_neg hne, hgc]
      simp [ht]

/-- Witness for C1 (amended) at a concrete input where the coverage directory
is freshly created and all subprocesses succeed. -/
theorem C1_witness :
    (coverage "profraw" ["q"] ["q"] allOk fsWithFile).steps =
      covStepsPrefix ["q"] ["q"] ∧
    (coverage "profraw" ["q"] ["q"] allOk fsWithFile).result = CovResult.ok := by
  have h := C1_amended ["q"] ["q"] allOk fsWithFile (by decide) (by decide)
  exact ⟨h.1, h.2.2.2.2 (by decide)⟩

/-- Counterexample to C2 as stated: with the unsupported format xml the task
does fail with the unsupported-format error, but only after the cargo-metadata
and instrumented-test subprocesses have already executed. -/
theorem C2_cex :
    (coverage "xml" ["p"] ["p"] allOk fsStale).result =
      CovResult.err (CovError.unsupportedFormat "xml") ∧
    Step.run (covTestCmd ["p"] ["p"]) ∈
      (coverage "xml" ["p"] ["p"] allOk fsStale).steps ∧
    Step.run cargoMetadataCmd ∈
      (coverage "xml" ["p"] ["p"] allOk fsStale).steps := by
  decide

/-- Claim C2 (corrected): for an output format outside
html/lcov/cobertura/covdir/profraw the task fails with the explicit
unsupported-format error and the report generator never runs, but the failure
occurs only after the metadata query and the instrumented-test invocation have
executed: validation does not precede the subprocesses. -/
theorem C2_amended (fmt : String) (pr wr : FsPath) (oracle : CommandSpec → Bool)
    (fs : FS)
    (hfmt : fmt ∉ (["html", "lcov", "cobertura", "covdir", "profraw"] : List String))
    (hm : oracle cargoMetadataCmd = true)
    (hclean : (get_clean_directory (covDir pr) fs).1 = FsResult.ok)
    (ht : oracle (covTestCmd pr wr) = true) :
    (coverage fmt pr wr oracle fs).result =
      CovResult.err (CovError.unsupportedFormat fmt) ∧
    (coverage fmt pr wr oracle fs).steps = covStepsPrefix pr wr := by
  simp only [List.mem_cons, List.mem_singleton] at hfmt
  push_neg at hfmt
  obtain ⟨h1, h2, h3, h4, h5, -⟩ := hfmt
  have hvf : validFormat fmt = false := by
    simp [validFormat, h1, h2, h3, h4]
  have hpf : (fmt == "profraw") = false := beq_eq_false_iff_ne.mpr h5
  have hne : ¬ (oracle cargoMetadataCmd = false) := by simp [hm]
  rcases hgc : get_clean_directory (covDir pr) fs with ⟨r, fs1⟩
  cases r with
  | err e =>
    rw [hgc] at hclean
    simp at hclean
  | ok =>
    simp only [coverage, if_neg hne, hgc]
    simp [ht, hpf, hvf]

/-- Witness for C2 (amended) at the concrete unsupported format xml. -/
theorem C2_witness :
    (coverage "xml" ["q"] ["q"] allOk fsWithFile).result =
      CovResult.err (CovError.unsupportedFormat "xml") ∧
    (coverage "xml" ["q"] ["q"] allOk fsWithFile).steps =
      covStepsPrefix ["q"] ["q"] :=
  C2_amended "xml" ["q"] ["q"] allOk fsWithFile (by decide) (by decide)
    (by decide) (by decide)

/-- Counterexample to C3 as stated: when the coverage directory pre-exists
non-empty, at the moment the instrumented tests start the directory does not
exist at all (it was deleted, not recreated empty), in an otherwise successful
run. -/
theorem C3_cex :
    (coverage "profraw" ["p"] ["p"] allOk fsStale).result = CovResult.ok ∧
    ((coverage "profraw" ["p"] ["p"] allOk fsStale).fsAtTest.map
      (fun f => f.existsPath (covDir ["p"]))) = some false := by
  decide

/-- Claim C3 (corrected): after the directory-cleaning step and before the
instrumented-test invocation starts, the coverage directory exists and is
empty when it did not exist beforehand; but when it already existed as a
(possibly non-empty) directory, it has been removed entirely and does not
exist at that point - it is only recreated later, by the report branch's
create_dir_all. -/
theorem C3_amended (fmt : String) (pr wr : FsPath) (oracle : CommandSpec → Bool)
    (fs : FS) (hm : oracle cargoMetadataCmd = true) (hwf : fs.wf = true)
    (hclean : (get_clean_directory (covDir pr) fs).1 = FsResult.ok) :
    (fs.existsPath (covDir pr) = false →
      (coverage fmt pr wr oracle fs).fsAtTest =
        some (fs.createDirAll (covDir pr)) ∧
      (fs.createDirAll (covDir pr)).emptyDirAt (covDir pr) = true) ∧
    (fs.isDir (covDir pr) = true →
      (coverage fmt pr wr oracle fs).fsAtTest =
        some (fs.removeDirAll (covDir pr)) ∧
      (fs.removeDirAll (covDir pr)).existsPath (covDir pr) = false) := by
  have hcd : covDir pr ≠ [] := by
    rw [covDir]
    intro hcon
    exact absurd (List.append_eq_nil.mp hcon).2 (by simp)
  constructor
  · intro h
    have hcan : fs.canCreateDirAll (covDir pr) = true := by
      by_contra hc
      rw [Bool.not_eq_true] at hc
      rw [get_clean_directory_blocked fs (covDir pr) h hc] at hclean
      simp at hclean
    have hgc := get_clean_directory_absent fs (covDir pr) h hcan
    have h1 := coverage_fsAtTest fmt pr wr oracle fs hm (by rw [hgc])
    rw [hgc] at h1
    exact ⟨h1, createDirAll_emptyDirAt fs (covDir pr) hwf hcd h⟩
  · intro h
    have hgc := get_clean_directory_dir fs (covDir pr) h
    have h1 := coverage_fsAtTest fmt pr wr oracle fs hm (by rw [hgc])
    rw [hgc] at h1
    exact ⟨h1, removeDirAll_not_exists fs (covDir pr) (covDir pr)
      (isPrefixB_refl _)⟩

/-- Witness for C3 (amended) at a concrete run whose coverage directory
pre-exists with a stale artifact. -/
theorem C3_witness :
    (coverage "lcov" ["p"] ["p"] allOk fsStale).fsAtTest =
      some (fsStale.removeDirAll (covDir ["p"])) ∧
    (fsStale.removeDirAll (covDir ["p"])).existsPath (covDir ["p"]) = false :=
  (C3_amended "lcov" ["p"] ["p"] allOk fsStale (by decide) (by decide)
    (by decide)).2 (by decide)

/-- Numeric value of a decimal digit character, none for other characters. -/
def digitVal? (c : Char) : Option Nat :=
  if c.isDigit then some (c.toNat - 48) else none

/-- Value of a digit string, most significant digit first, folded onto `acc`;
none as soon as a non-digit appears. -/
def digitsVal? : List Char → Nat → Option Nat
  | [], acc => some acc
  | c :: rest, acc =>
    match digitVal? c with
    | none => none
    | some d => digitsVal? rest (acc * 10 + d)

/-- Split at the first dot: characters before it, and those after it when a
dot is present. -/
def breakAtDot : List Char → List Char × Option (List Char)
  | [] => ([], none)
  | c :: rest =>
    if c = '.' then ([], some rest)
    else ((c :: (breakAtDot rest).1), (breakAtDot rest).2)

/-- Models the source's `str::parse::<f32>` restricted to plain decimal
literals (`digits` or `digits.digits`), as the exact value in the form
numerator over a power-of-ten denominator. On the inputs considered here the
two-decimal rendering of the nearest f32 agrees with that of the exact
value. -/
def parseDecimalFrac? (s : String) : Option (Nat × Nat) :=
  match breakAtDot s.toList with
  | (ip, none) =>
    if ip = [] then none
    else (digitsVal? ip 0).map (fun n => (n, 1))
  | (ip, some fp) =>
    if ip = [] ∨ fp = [] then none
    else
      match digitsVal? ip 0, digitsVal? fp 0 with
      | some n, some f => some (n * 10 ^ fp.length + f, 10 ^ fp.length)
      | _, _ => none

/-- Rust's fixed two-decimal formatting of a nonnegative fraction num/den,
modelled as round-half-up to hundredths (no rounding tie arises at the inputs
considered here), printed as units, a dot, and two fractional digits. -/
def formatFixed2 (num den : Nat) : String :=
  toString ((num * 200 + den) / (2 * den) / 100) ++ "." ++
    (if (num * 200 + den) / (2 * den) % 100 < 10 then "0" else "") ++
    toString ((num * 200 + den) / (2 * den) % 100)

/-- Embeds `tasks::cobertura_total_coverage` (tasks.rs:79-90): the xmllint
query for the line-rate attribute is modelled by its result string `attr`; on
parse success the function prints the parsed value with two decimals followed
by a percent sign. Returns the printed line, or none when parsing fails. -/
def cobertura_total_coverage (attr : String) : Option String :=
  (parseDecimalFrac? attr).map (fun q => "Coverage: " ++ formatFixed2 q.1 q.2 ++ "%")

/-- Claim C9 (code_bug): at line-rate attribute string 0.8734 the function
parses the number but prints the line `Coverage: 0.87%` - the raw line-rate
fraction rounded to two decimals with a percent sign appended - rather than a
value representing 87.34 percent: the conversion to a percentage (the factor
100) is missing although the format string appends a percent sign. -/
theorem C9_eval :
    cobertura_total_coverage "0.8734" = some "Coverage: 0.87%" ∧
    cobertura_total_coverage "0.8734" ≠ some "Coverage: 87.34%" := by
  constructor
  · decide
  · decide

/-- Result of reading one directory entry: the entry's file name, or the
per-entry I/O failure that `read_dir`'s iterator can yield - which the source
unwraps. -/
inductive EntryResult
  | okEntry (name : String)
  | errEntry
deriving DecidableEq

/-- Outcome of `nearest_cargo_dir`: a found ancestor, a propagated I/O error
from opening a directory, the structured NotFound error, or a panic raised by
unwrapping a failed entry read. -/
inductive NearestOutcome
  | found (dir : FsPath)
  | ioError
  | notFoundError
  | panics
deriving DecidableEq

/-- The scan `read_dir(p)?.all(|p| p.unwrap().file_name() != "Cargo.toml")`
over one listing: entries are inspected in order and unwrapped as visited;
none signals the panic on a failed entry read, otherwise the result says
whether a `Cargo.toml` entry was encountered (the iterator short-circuits
there). -/
def scanForCargo : List EntryResult → Option Bool
  | [] => some false
  | EntryResult.errEntry :: _ => none
  | EntryResult.okEntry name :: rest =>
    if name = "Cargo.toml" then some true else scanForCargo rest

/-- Embeds `ops::nearest_cargo_dir` (ops.rs:136-150) over the ancestor chain
of the current directory, innermost first: each ancestor carries its
`read_dir` result (`none` when opening the directory fails, which the source
propagates with the question-mark operator as an I/O error). -/
def nearest_cargo_dir :
    List (FsPath × Option (List EntryResult)) → NearestOutcome
  | [] => NearestOutcome.notFoundError
  | (_, none) :: _ => NearestOutcome.ioError
  | (p, some listing) :: rest =>
    match scanForCargo listing with
    | none => NearestOutcome.panics
    | some true => NearestOutcome.found p
    | some false => nearest_cargo_dir rest

/-- Claim C10 (confirmed): `nearest_cargo_dir` can panic rather than return an
error. On an ancestor whose directory opens but whose first entry read fails,
the per-entry unwrap panics - an outcome distinct from the structured
NotFound and I/O errors the interface otherwise uses, which the neighbouring
filesystem states here do return; when a `Cargo.toml` entry precedes the
failing one, the scan short-circuits and no panic occurs. -/
theorem C10_nearest_cargo_dir_panics :
    nearest_cargo_dir [(["home"], some [EntryResult.errEntry])] =
      NearestOutcome.panics ∧
    NearestOutcome.panics ≠ NearestOutcome.ioError ∧
    NearestOutcome.panics ≠ NearestOutcome.notFoundError ∧
    nearest_cargo_dir [] = NearestOutcome.notFoundError ∧
    nearest_cargo_dir [(["home"], none)] = NearestOutcome.ioError ∧
    nearest_cargo_dir
      [(["home"],
        some [EntryResult.okEntry "Cargo.toml", EntryResult.errEntry])] =
      NearestOutcome.found ["home"] := by
  decide
